import Mathlib

/-!
Shallow embedding of `src/globes.js`, a compact solar-system visualization.

JavaScript numbers are modelled as real numbers (`ℝ`).  The static body
catalog, the orbital position model (the per-frame position update loop),
the depth sort, the per-body draw decisions, the resize scale computation
and the mount/teardown lifecycle are translated directly from the source.
-/

open Real

namespace Globes

/-- A catalog entry, as in the `bodies` array of the source:
`r` = base radius, `d` = orbit distance, `p` = period,
`o` = parent index (`none` for the central body),
`ring` = optional inner/outer ring radii. -/
structure CelestialBody where
  r : ℝ
  d : ℝ
  p : ℝ
  o : Option Nat
  ring : Option (ℝ × ℝ)

instance : Inhabited CelestialBody := ⟨⟨0, 0, 1, none, none⟩⟩

/-- Per-body mutable state, as in the `state` array of the source. -/
structure BodyState where
  x : ℝ
  y : ℝ
  z : ℝ
  r : ℝ
  dr : ℝ

instance : Inhabited BodyState := ⟨⟨0, 0, 0, 0, 0⟩⟩

/-- `const S = 2000` -/
noncomputable def S : ℝ := 2000
/-- `E = 18.33` -/
noncomputable def E : ℝ := 18.33
/-- `M = 5` -/
noncomputable def M : ℝ := 5
/-- `J = 201` -/
noncomputable def J : ℝ := 201
/-- `SA = 167` -/
noncomputable def SA : ℝ := 167
/-- `U = 72.9` -/
noncomputable def U : ℝ := 72.9
/-- `N = 70.5` -/
noncomputable def N : ℝ := 70.5
/-- `const MAX_ORBIT = S + 4500` (Neptune's orbit distance from center). -/
noncomputable def MAX_ORBIT : ℝ := S + 4500

/-- The static body catalog (`const bodies = [...]` in the source). -/
noncomputable def bodies : List CelestialBody :=
  [ ⟨S, 0, 1, none, none⟩                                       -- Sun
  , ⟨7, S + 20, 58.6 * 864e2, some 0, none⟩                     -- Mercury
  , ⟨17, S + 50, 243 * 864e2, some 0, none⟩                     -- Venus
  , ⟨E, S + 150, 365.256 * 864e2, some 0, none⟩                 -- Earth
  , ⟨M, E + 50, 29.5 * 864e2, some 3, none⟩                     -- Moon -> Earth
  , ⟨9.76, S + 250, 687 * 864e2, some 0, none⟩                  -- Mars
  , ⟨J, S + 700, 4333 * 864e2, some 0, none⟩                    -- Jupiter
  , ⟨5.25, J + 20, 42.5 * 36e2, some 6, none⟩                   -- Io -> Jupiter
  , ⟨4.49, J + 40, 3.5 * 864e2, some 6, none⟩                   -- Europa -> Jupiter
  , ⟨7.57, J + 70, 7.155 * 864e2, some 6, none⟩                 -- Ganymede -> Jupiter
  , ⟨7.4, J + 200, 16.689 * 864e2, some 6, none⟩                -- Callisto -> Jupiter
  , ⟨SA, S + 1500, 10756 * 864e2, some 0, some (SA + 100, SA + 200)⟩  -- Saturn
  , ⟨U, S + 2500, 30688 * 864e2, some 0, some (U + 100, U + 200)⟩     -- Uranus
  , ⟨N, S + 4500, 60182 * 864e2, some 0, none⟩                  -- Neptune
  ]

/-- The fixed viewing angle (`let angle = -0.3`). -/
noncomputable def viewAngle : ℝ := -0.3

/-- `function orbit(t, p, off = 0) { return Math.cos(t / p * 2 * Math.PI + off); }` -/
noncomputable def orbit (t p off : ℝ) : ℝ :=
  Real.cos (t / p * 2 * Real.pi + off)

/-- `s.r = Math.max(b.o !== null ? 0.5 : 0.51, b.r * scale)` -/
noncomputable def screenRadius (b : CelestialBody) (scale : ℝ) : ℝ :=
  max (if b.o = none then 0.51 else 0.5) (b.r * scale)

/-- The implicit parent of the central body: `{ x: 0, y: 0, z: 0 }`. -/
noncomputable def originParent : BodyState := ⟨0, 0, 0, 0, 0⟩

/-- One iteration of the position update loop (lines 59–69 of the source),
given the parent's state. -/
noncomputable def updateBody (t angle scale : ℝ) (b : CelestialBody)
    (parent : BodyState) : BodyState :=
  let dist := b.d * scale
  { x := parent.x + dist * orbit t b.p 0
  , y := parent.y + Real.sin angle * dist * orbit t b.p (Real.pi / 2)
  , z := parent.z + Real.cos angle * dist * orbit t b.p (Real.pi / 2)
  , r := screenRadius b scale
  , dr := b.d * scale }

/-- `const parent = b.o !== null ? state[b.o] : { x: 0, y: 0, z: 0 }` —
the parent state is looked up in the (partially updated) state array. -/
noncomputable def parentState (s : List BodyState) (b : CelestialBody) : BodyState :=
  match b.o with
  | none => originParent
  | some j => s.getD j default

/-- The first `n` iterations of the position update loop of `draw`,
overwriting `state[i]` in place exactly as the source does: the parent
lookup reads whatever the state array currently holds. -/
noncomputable def loopTo (cat : List CelestialBody) (t angle scale : ℝ)
    (n : Nat) (s0 : List BodyState) : List BodyState :=
  (List.range n).foldl
    (fun s i =>
      let b := cat.getD i default
      s.set i (updateBody t angle scale b (parentState s b)))
    s0

/-- The full position update loop of `draw` (lines 59–69 of the source):
iterate over every catalog index, mutating the state array in place. -/
noncomputable def frameStates (cat : List CelestialBody) (t angle scale : ℝ)
    (s0 : List BodyState) : List BodyState :=
  loopTo cat t angle scale cat.length s0

/-- Canonical (history-free) body state: the value the update loop writes at
index `i` when every parent index is smaller than its child's index, defined
by recursion on the index. -/
noncomputable def stateAt (cat : List CelestialBody) (t angle scale : ℝ)
    (i : Nat) : BodyState :=
  updateBody t angle scale (cat.getD i default)
    (match (cat.getD i default).o with
     | none => originParent
     | some j => if _ : j < i then stateAt cat t angle scale j else originParent)
termination_by i

/-- The catalog lists every parent before its children
(the array-position convention the source relies on). -/
def ParentsEarlier (cat : List CelestialBody) : Prop :=
  ∀ i, i < cat.length → ∀ j, (cat.getD i default).o = some j → j < i

/-- `scale = Math.min(rect.width, rect.height) / (MAX_ORBIT * 2)`
(the `resize` handler, given the container's logical size). -/
noncomputable def resizeScale (w h : ℝ) : ℝ :=
  min w h / (MAX_ORBIT * 2)

/-- `const ringR = (obj.r / b.r) * (b.ring[0] + b.ring[1]) / 2` -/
noncomputable def ringRadius (objr br r0 r1 : ℝ) : ℝ :=
  objr / br * (r0 + r1) / 2

/-- The hidden-arc quantity of the ring drawing code:
`const hidden = -Math.tan(angle) * (obj.r / b.r) * b.ring[0] >= obj.r ? 0
  : Math.cos(angle) * 2 * Math.asin(Math.min(1, obj.r / ringR))`. -/
noncomputable def ringHidden (angle objr br r0 r1 : ℝ) : ℝ :=
  if -Real.tan angle * (objr / br) * r0 ≥ objr then 0
  else Real.cos angle * 2 * Real.arcsin (min 1 (objr / ringRadius objr br r0 r1))

/-- `state.map((s, i) => ({ ...s, i })).sort((a, b) => b.z - a.z)`:
tag every state with its catalog index and stably sort by descending `z`
(a JS comparator `b.z - a.z` orders `a` before `b` exactly when
`b.z ≤ a.z`, and JS `Array.prototype.sort` is stable). -/
noncomputable def depthSort (states : List BodyState) : List (Nat × BodyState) :=
  (states.enum).mergeSort (fun a b => decide (b.2.z ≤ a.2.z))

/-- A primitive drawing command issued to the canvas context. -/
inductive DrawCmd where
  | disc (x y r : ℝ)
  | ringArc (x y rx ry arcStart arcEnd lw : ℝ)

/-- The commands the body loop of `draw` (lines 75–101) issues for one body:
the disc (only when `obj.r > 0.5 || b.o === null`) followed by the ring arc
(only for ringed bodies). -/
noncomputable def drawBody (cx cy angle : ℝ) (b : CelestialBody)
    (obj : BodyState) : List DrawCmd :=
  (if 0.5 < obj.r ∨ b.o = none
     then [DrawCmd.disc (cx + obj.x) (cy + obj.y) obj.r]
     else [])
  ++ (match b.ring with
      | none => []
      | some (r0, r1) =>
        let ringR := ringRadius obj.r b.r r0 r1
        let lw := Real.sin angle * ringR + 1
        let hidden := ringHidden angle obj.r b.r r0 r1
        [DrawCmd.ringArc (cx + obj.x) (cy + obj.y) ringR (ringR * -Real.sin angle)
          ((-Real.pi + hidden) / 2) ((3 * Real.pi - hidden) / 2) (max 1 lw)])

/-- All commands of one frame: depth-sort the states, then draw each body
back to front. -/
noncomputable def renderFrame (cat : List CelestialBody) (cx cy angle : ℝ)
    (states : List BodyState) : List DrawCmd :=
  (depthSort states).foldr
    (fun p acc => drawBody cx cy angle (cat.getD p.1 default) p.2 ++ acc) []

/-- The lifecycle state of the component: simulated clock, scale factor,
whether an animation frame is pending, whether the resize listener is
attached, and whether the canvas is in the container. -/
structure SysState where
  t : ℝ
  scale : ℝ
  frameScheduled : Bool
  resizeAttached : Bool
  canvasAttached : Bool

/-- A `resize` event: recompute the scale factor; nothing else changes. -/
noncomputable def resizeEvent (w h : ℝ) (s : SysState) : SysState :=
  { s with scale := resizeScale w h }

/-- Running one scheduled frame: `draw` advances the clock by `9e5` and then
unconditionally calls `requestAnimationFrame(draw)`, leaving a frame pending. -/
noncomputable def frameStep (s : SysState) : SysState :=
  { s with t := s.t + 9e5, frameScheduled := true }

/-- The `globes` entry point: `resize(); window.addEventListener('resize', resize);
draw();` — the first `draw` call leaves a frame scheduled. -/
noncomputable def mount (w h : ℝ) : SysState :=
  { t := 9e5, scale := resizeScale w h
  , frameScheduled := true, resizeAttached := true, canvasAttached := true }

/-- The teardown closure returned by `globes` (lines 111–114):
`window.removeEventListener('resize', resize); canvas.remove();` —
it does not touch the pending animation frame. -/
noncomputable def teardown (s : SysState) : SysState :=
  { s with resizeAttached := false, canvasAttached := false }

theorem getD_set_self {α : Type _} (l : List α) (n : Nat) (v d : α)
    (h : n < l.length) : (l.set n v).getD n d = v := by
  rw [List.getD_eq_getElem?_getD, List.getElem?_set_self h, Option.getD_some]

theorem getD_set_ne {α : Type _} (l : List α) (m n : Nat) (v d : α)
    (h : m ≠ n) : (l.set m v).getD n d = l.getD n d := by
  rw [List.getD_eq_getElem?_getD, List.getElem?_set_ne h, ← List.getD_eq_getElem?_getD]

theorem stateAt_eq (cat : List CelestialBody) (t angle scale : ℝ) (i : Nat) :
    stateAt cat t angle scale i =
      updateBody t angle scale (cat.getD i default)
        (match (cat.getD i default).o with
         | none => originParent
         | some j => if _ : j < i then stateAt cat t angle scale j else originParent) := by
  rw [stateAt]

theorem loopTo_succ (cat : List CelestialBody) (t angle scale : ℝ) (n : Nat)
    (s0 : List BodyState) :
    loopTo cat t angle scale (n + 1) s0 =
      (loopTo cat t angle scale n s0).set n
        (updateBody t angle scale (cat.getD n default)
          (parentState (loopTo cat t angle scale n s0) (cat.getD n default))) := by
  simp [loopTo, List.range_succ, List.foldl_append]

theorem length_loopTo (cat : List CelestialBody) (t angle scale : ℝ) (n : Nat)
    (s0 : List BodyState) :
    (loopTo cat t angle scale n s0).length = s0.length := by
  induction n with
  | zero => rfl
  | succ n ih => rw [loopTo_succ]; simp [ih]

theorem loopTo_getD (cat : List CelestialBody) (t angle scale : ℝ)
    (hp : ParentsEarlier cat) (s0 : List BodyState)
    (hlen : s0.length = cat.length) (n : Nat) (hn : n ≤ cat.length) :
    ∀ k, k < n →
      (loopTo cat t angle scale n s0).getD k default = stateAt cat t angle scale k := by
  induction n with
  | zero => intro k hk; exact absurd hk (Nat.not_lt_zero k)
  | succ n ih =>
    intro k hk
    rw [loopTo_succ]
    by_cases hkn : k = n
    · subst hkn
      have hklen : k < (loopTo cat t angle scale k s0).length := by
        rw [length_loopTo, hlen]; omega
      rw [getD_set_self _ _ _ _ hklen]
      rw [stateAt_eq]
      congr 1
      unfold parentState
      rcases ho : (cat.getD k default).o with _ | j
      · rfl
      · have hj : j < k := hp k (by omega) j ho
        simp only [dif_pos hj]
        exact ih (by omega) j hj
    · have hkn2 : k < n := by omega
      rw [getD_set_ne _ _ _ _ _ (by omega : n ≠ k)]
      exact ih (by omega) k hkn2

theorem frameStates_getD (cat : List CelestialBody) (t angle scale : ℝ)
    (hp : ParentsEarlier cat) (s0 : List BodyState)
    (hlen : s0.length = cat.length) (k : Nat) (hk : k < cat.length) :
    (frameStates cat t angle scale s0).getD k default = stateAt cat t angle scale k :=
  loopTo_getD cat t angle scale hp s0 hlen cat.length le_rfl k hk

theorem bodies_parentsEarlier : ParentsEarlier bodies := by
  intro i hi j hj
  simp only [bodies, List.length_cons, List.length_nil] at hi
  interval_cases i <;> simp [bodies, List.getD] at hj <;> omega

/-- C5: the per-frame state computation is deterministic — for a fixed
catalog (with parents listed before children), simulated time, viewing angle
and scale factor, running the position update loop from any two prior
contents of the mutable state array yields identical output. -/
theorem frameStates_deterministic (cat : List CelestialBody) (t angle scale : ℝ)
    (s1 s2 : List BodyState) (hp : ParentsEarlier cat)
    (h1 : s1.length = cat.length) (h2 : s2.length = cat.length) :
    frameStates cat t angle scale s1 = frameStates cat t angle scale s2 := by
  have hl1 : (frameStates cat t angle scale s1).length = cat.length := by
    rw [frameStates, length_loopTo, h1]
  have hl2 : (frameStates cat t angle scale s2).length = cat.length := by
    rw [frameStates, length_loopTo, h2]
  apply List.ext_getElem (by rw [hl1, hl2])
  intro k hk1 hk2
  have hk : k < cat.length := by rw [hl1] at hk1; exact hk1
  have e1 := frameStates_getD cat t angle scale hp s1 h1 k hk
  have e2 := frameStates_getD cat t angle scale hp s2 h2 k hk
  rw [List.getD_eq_getElem?_getD, List.getElem?_eq_getElem hk1, Option.getD_some] at e1
  rw [List.getD_eq_getElem?_getD, List.getElem?_eq_getElem hk2, Option.getD_some] at e2
  rw [e1, e2]

/-- Witness for C5: the actual catalog run from two different prior state
arrays produces the same states. -/
theorem frameStates_deterministic_witness :
    frameStates bodies 0 0 1 (List.replicate 14 default)
      = frameStates bodies 0 0 1 (List.replicate 14 ⟨1, 2, 3, 4, 5⟩) :=
  frameStates_deterministic bodies 0 0 1 _ _ bodies_parentsEarlier
    (by simp [bodies]) (by simp [bodies])

/-- C10: the central body (catalog index 0, orbit distance 0, no parent)
sits at the origin `(0, 0, 0)` at every simulated time, viewing angle and
scale factor. -/
theorem central_body_at_origin (t angle scale : ℝ) :
    (stateAt bodies t angle scale 0).x = 0
    ∧ (stateAt bodies t angle scale 0).y = 0
    ∧ (stateAt bodies t angle scale 0).z = 0 := by
  rw [stateAt_eq]
  simp [bodies, updateBody, originParent, List.getD]

/-- C2: for every body and every scale factor the computed screen radius is
exactly `max(floor, baseRadius * scale)`, hence at least the body's floor
constant, and the central body's floor `0.51` is strictly greater than the
satellites' floor `0.5`. -/
theorem screen_radius_floor (cat : List CelestialBody) (t angle scale : ℝ)
    (i : Nat) :
    (stateAt cat t angle scale i).r
        = max (if (cat.getD i default).o = none then 0.51 else 0.5)
            ((cat.getD i default).r * scale)
    ∧ (if (cat.getD i default).o = none then (0.51 : ℝ) else 0.5)
        ≤ (stateAt cat t angle scale i).r
    ∧ (0.5 : ℝ) < 0.51 := by
  have hr : (stateAt cat t angle scale i).r
      = max (if (cat.getD i default).o = none then 0.51 else 0.5)
          ((cat.getD i default).r * scale) := by
    rw [stateAt_eq]; rfl
  refine ⟨hr, ?_, by norm_num⟩
  rw [hr]
  exact le_max_left _ _

/-- C1: for a satellite (a body whose parent is listed earlier), the
position offset from its parent is
`(d·scale·cos(2πt/p), sin(angle)·d·scale·cos(2πt/p + π/2),
cos(angle)·d·scale·cos(2πt/p + π/2))` with `d`, `p` the satellite's own
orbit distance and period — it depends only on time, the viewing angle, the
scale factor and the satellite's own parameters, so it is invariant under
translation of the parent's position. -/
theorem satellite_offset (cat : List CelestialBody) (t angle scale : ℝ)
    (i j : Nat) (hij : (cat.getD i default).o = some j) (hj : j < i) :
    (stateAt cat t angle scale i).x - (stateAt cat t angle scale j).x
        = (cat.getD i default).d * scale
            * Real.cos (2 * Real.pi * t / (cat.getD i default).p)
    ∧ (stateAt cat t angle scale i).y - (stateAt cat t angle scale j).y
        = Real.sin angle * ((cat.getD i default).d * scale)
            * Real.cos (2 * Real.pi * t / (cat.getD i default).p + Real.pi / 2)
    ∧ (stateAt cat t angle scale i).z - (stateAt cat t angle scale j).z
        = Real.cos angle * ((cat.getD i default).d * scale)
            * Real.cos (2 * Real.pi * t / (cat.getD i default).p + Real.pi / 2) := by
  rw [stateAt_eq cat t angle scale i, hij]
  simp only [dif_pos hj]
  have harg : t / (cat.getD i default).p * 2 * Real.pi
      = 2 * Real.pi * t / (cat.getD i default).p := by ring
  simp only [updateBody, orbit, harg]
  refine ⟨by ring_nf, by ring_nf, by ring_nf⟩

/-- Witness for C1: the Moon (index 4) relative to the Earth (index 3). -/
theorem satellite_offset_witness :
    (bodies.getD 4 default).o = some 3
    ∧ ((stateAt bodies 0 0 1 4).x - (stateAt bodies 0 0 1 3).x
        = (bodies.getD 4 default).d * 1
            * Real.cos (2 * Real.pi * 0 / (bodies.getD 4 default).p)
      ∧ (stateAt bodies 0 0 1 4).y - (stateAt bodies 0 0 1 3).y
        = Real.sin 0 * ((bodies.getD 4 default).d * 1)
            * Real.cos (2 * Real.pi * 0 / (bodies.getD 4 default).p + Real.pi / 2)
      ∧ (stateAt bodies 0 0 1 4).z - (stateAt bodies 0 0 1 3).z
        = Real.cos 0 * ((bodies.getD 4 default).d * 1)
            * Real.cos (2 * Real.pi * 0 / (bodies.getD 4 default).p + Real.pi / 2)) :=
  ⟨by simp [bodies, List.getD],
    satellite_offset bodies 0 0 1 4 3 (by simp [bodies, List.getD]) (by omega)⟩

/-- C6: a body with no parent and nonzero period `P` returns to the same
state (in particular the same in-plane position) after one full period:
its state at `t + P` equals its state at `t`, for any `t`. -/
theorem central_periodicity (cat : List CelestialBody) (t angle scale : ℝ)
    (i : Nat) (ho : (cat.getD i default).o = none)
    (hP : (cat.getD i default).p ≠ 0) :
    stateAt cat (t + (cat.getD i default).p) angle scale i
      = stateAt cat t angle scale i := by
  have horb : ∀ off : ℝ,
      orbit (t + (cat.getD i default).p) (cat.getD i default).p off
        = orbit t (cat.getD i default).p off := by
    intro off
    unfold orbit
    have harg : (t + (cat.getD i default).p) / (cat.getD i default).p * 2 * Real.pi + off
        = t / (cat.getD i default).p * 2 * Real.pi + off + 2 * Real.pi := by
      rw [add_div, div_self hP]
      ring
    rw [harg, Real.cos_add_two_pi]
  rw [stateAt_eq cat (t + (cat.getD i default).p), stateAt_eq cat t, ho]
  simp only [updateBody, horb]

/-- Witness for C6: the Sun (index 0, period 1) at `t = 0`. -/
theorem central_periodicity_witness :
    (bodies.getD 0 default).o = none
    ∧ stateAt bodies (0 + (bodies.getD 0 default).p) 0 1 0 = stateAt bodies 0 0 1 0 :=
  ⟨by simp [bodies, List.getD],
    central_periodicity bodies 0 0 1 0 (by simp [bodies, List.getD])
      (by simp [bodies, List.getD])⟩

/-- C3: each frame the tagged states are sorted by descending `z` (larger
depth painted first), the sort is stable (two entries with equal `z` keep
their catalog order), and sorting the same state set twice yields the same
draw order. -/
theorem depth_sort_spec (states : List BodyState) (i j : Nat)
    (s1 s2 : BodyState) (hsub : List.Sublist [(i, s1), (j, s2)] states.enum)
    (hz : s1.z = s2.z) :
    ((depthSort states).Pairwise fun a b => b.2.z ≤ a.2.z)
    ∧ List.Sublist [(i, s1), (j, s2)] (depthSort states)
    ∧ depthSort states = depthSort states := by
  have htrans : ∀ a b c : Nat × BodyState,
      decide (b.2.z ≤ a.2.z) → decide (c.2.z ≤ b.2.z) → decide (c.2.z ≤ a.2.z) := by
    intro a b c hab hbc
    simp only [decide_eq_true_eq] at hab hbc ⊢
    exact le_trans hbc hab
  have htotal : ∀ a b : Nat × BodyState,
      (decide (b.2.z ≤ a.2.z) || decide (a.2.z ≤ b.2.z)) = true := by
    intro a b
    simp only [Bool.or_eq_true, decide_eq_true_eq]
    exact le_total _ _
  refine ⟨?_, ?_, rfl⟩
  · have h := List.sorted_mergeSort htrans htotal (states.enum)
    exact h.imp (fun hab => by simpa using hab)
  · exact List.pair_sublist_mergeSort htrans htotal (by simp [hz]) hsub

/-- Witness for C3: a two-body state set with equal depths. -/
theorem depth_sort_witness :
    ((depthSort [default, default]).Pairwise fun a b => b.2.z ≤ a.2.z)
    ∧ List.Sublist [(0, (default : BodyState)), (1, (default : BodyState))]
        (depthSort [default, default])
    ∧ depthSort [default, default] = depthSort [default, default] :=
  depth_sort_spec [default, default] 0 1 default default (List.Sublist.refl _) rfl

/-- C4: at the fixed viewing angle `-0.3`, for any positive disc radius and
positive ring radius the hidden-arc quantity lies in `[0, π]`, so the drawn
arc span from `(-π + hidden)/2` to `(3π - hidden)/2` is never
negative-length and never exceeds a full turn. -/
theorem ring_hidden_bounds (objr br r0 r1 : ℝ) (hobj : 0 < objr)
    (hring : 0 < ringRadius objr br r0 r1) :
    (0 ≤ ringHidden viewAngle objr br r0 r1
      ∧ ringHidden viewAngle objr br r0 r1 ≤ Real.pi)
    ∧ 0 ≤ (3 * Real.pi - ringHidden viewAngle objr br r0 r1) / 2
          - (-Real.pi + ringHidden viewAngle objr br r0 r1) / 2
    ∧ (3 * Real.pi - ringHidden viewAngle objr br r0 r1) / 2
          - (-Real.pi + ringHidden viewAngle objr br r0 r1) / 2 ≤ 2 * Real.pi := by
  have hpi : (3 : ℝ) < Real.pi := Real.pi_gt_three
  have hcos0 : 0 ≤ Real.cos viewAngle := by
    apply Real.cos_nonneg_of_mem_Icc
    simp only [viewAngle, Set.mem_Icc]
    constructor <;> nlinarith
  have hcos1 : Real.cos viewAngle ≤ 1 := Real.cos_le_one _
  have main : 0 ≤ ringHidden viewAngle objr br r0 r1
      ∧ ringHidden viewAngle objr br r0 r1 ≤ Real.pi := by
    unfold ringHidden
    split
    · exact ⟨le_refl 0, by nlinarith⟩
    · have hm0 : 0 ≤ min 1 (objr / ringRadius objr br r0 r1) :=
        le_min (by norm_num) (le_of_lt (div_pos hobj hring))
      have harc0 : 0 ≤ Real.arcsin (min 1 (objr / ringRadius objr br r0 r1)) :=
        Real.arcsin_nonneg.mpr hm0
      have harc2 : Real.arcsin (min 1 (objr / ringRadius objr br r0 r1)) ≤ Real.pi / 2 :=
        Real.arcsin_le_pi_div_two _
      constructor
      · exact mul_nonneg (mul_nonneg hcos0 (by norm_num)) harc0
      · nlinarith
  exact ⟨main, by linarith [main.1, main.2], by linarith [main.1, main.2]⟩

/-- Witness for C4: Saturn's ring span at a disc radius of `1`. -/
theorem ring_hidden_bounds_witness :
    ((0 : ℝ) < 1 ∧ 0 < ringRadius 1 167 267 367)
    ∧ ((0 ≤ ringHidden viewAngle 1 167 267 367
        ∧ ringHidden viewAngle 1 167 267 367 ≤ Real.pi)
      ∧ 0 ≤ (3 * Real.pi - ringHidden viewAngle 1 167 267 367) / 2
            - (-Real.pi + ringHidden viewAngle 1 167 267 367) / 2
      ∧ (3 * Real.pi - ringHidden viewAngle 1 167 267 367) / 2
            - (-Real.pi + ringHidden viewAngle 1 167 267 367) / 2 ≤ 2 * Real.pi) :=
  ⟨⟨by norm_num, by norm_num [ringRadius]⟩,
    ring_hidden_bounds 1 167 267 367 (by norm_num) (by norm_num [ringRadius])⟩

/-- C7 counterexample: going from a 1000×1000 container to a 2000×2000
container doubles the scale factor, but it does not double Europa's screen
radius — at the small scale Europa is clamped to the `0.5` floor
(`4.49 · 1000/13000 < 0.5`) while at the doubled scale it is not. -/
theorem resize_radius_not_doubled :
    screenRadius (bodies.getD 8 default) (resizeScale 2000 2000)
      ≠ 2 * screenRadius (bodies.getD 8 default) (resizeScale 1000 1000) := by
  have hb : bodies.getD 8 default = ⟨4.49, J + 40, 3.5 * 864e2, some 6, none⟩ := by
    simp [bodies, List.getD]
  rw [hb]
  unfold screenRadius resizeScale MAX_ORBIT S
  rw [min_self, min_self]
  norm_num
  rw [max_eq_right (by rw [if_neg (Option.some_ne_none 6)]; norm_num),
    max_eq_left (by rw [if_neg (Option.some_ne_none 6)]; norm_num),
    if_neg (Option.some_ne_none 6)]
  norm_num

/-- C7 (amended): doubling the container's logical dimensions doubles the
recomputed scale factor and every body's orbital screen distance, leaves
the simulated time unchanged, and doubles a body's screen radius provided
its unclamped radius `baseRadius · scale` already meets its floor. -/
theorem resize_doubling (w h t angle scale : ℝ) (cat : List CelestialBody)
    (i : Nat) (b : CelestialBody) (s : SysState)
    (hfloor : (if b.o = none then (0.51 : ℝ) else 0.5) ≤ b.r * scale) :
    resizeScale (2 * w) (2 * h) = 2 * resizeScale w h
    ∧ (stateAt cat t angle (2 * scale) i).dr = 2 * (stateAt cat t angle scale i).dr
    ∧ screenRadius b (2 * scale) = 2 * screenRadius b scale
    ∧ (resizeEvent w h s).t = s.t := by
  refine ⟨?_, ?_, ?_, rfl⟩
  · unfold resizeScale
    rcases le_total w h with hwh | hwh
    · rw [min_eq_left hwh, min_eq_left (by linarith)]; ring
    · rw [min_eq_right hwh, min_eq_right (by linarith)]; ring
  · have h2 : ∀ sc : ℝ, (stateAt cat t angle sc i).dr = (cat.getD i default).d * sc := by
      intro sc; rw [stateAt_eq]; rfl
    rw [h2, h2]; ring
  · have hf0 : (0 : ℝ) ≤ (if b.o = none then (0.51 : ℝ) else 0.5) := by
      split <;> norm_num
    unfold screenRadius
    rw [max_eq_right hfloor, max_eq_right (by nlinarith)]
    ring

/-- Witness for C7 (amended): the Sun at scale factor 1. -/
theorem resize_doubling_witness :
    ((if (bodies.getD 0 default).o = none then (0.51 : ℝ) else 0.5)
        ≤ (bodies.getD 0 default).r * 1)
    ∧ (resizeScale (2 * 1000) (2 * 1000) = 2 * resizeScale 1000 1000
      ∧ (stateAt bodies 0 0 (2 * 1) 0).dr = 2 * (stateAt bodies 0 0 1 0).dr
      ∧ screenRadius (bodies.getD 0 default) (2 * 1)
          = 2 * screenRadius (bodies.getD 0 default) 1
      ∧ (resizeEvent 1000 1000 ⟨0, 1, true, true, true⟩).t
          = (⟨0, 1, true, true, true⟩ : SysState).t) :=
  ⟨by simp [bodies, List.getD]; norm_num [S],
    resize_doubling 1000 1000 0 0 1 bodies 0 (bodies.getD 0 default)
      ⟨0, 1, true, true, true⟩ (by simp [bodies, List.getD]; norm_num [S])⟩

/-- C8 (code behavior at the failing input): invoking the teardown handle
right after mount detaches the resize listener and removes the canvas, but
the pending animation frame stays scheduled, and running it schedules yet
another frame — the loop is never stopped. -/
theorem teardown_leaves_loop_running (w h : ℝ) :
    (teardown (mount w h)).resizeAttached = false
    ∧ (teardown (mount w h)).canvasAttached = false
    ∧ (teardown (mount w h)).frameScheduled = true
    ∧ (frameStep (teardown (mount w h))).frameScheduled = true := by
  refine ⟨rfl, rfl, rfl, rfl⟩

/-- C9: a body's disc is drawn exactly when its clamped screen radius
strictly exceeds the `0.5` floor or the body is the central (parentless)
body; satellites clamped to exactly `0.5` are skipped, the central body
always drawn. -/
theorem disc_drawn_iff (cx cy angle : ℝ) (b : CelestialBody)
    (obj : BodyState) :
    (∃ x y r, DrawCmd.disc x y r ∈ drawBody cx cy angle b obj)
      ↔ (0.5 < obj.r ∨ b.o = none) := by
  unfold drawBody
  constructor
  · rintro ⟨x, y, r, hmem⟩
    by_contra hcond
    rw [if_neg hcond, List.nil_append] at hmem
    rcases hr : b.ring with _ | ⟨r0, r1⟩ <;> rw [hr] at hmem <;> simp at hmem
  · intro hcond
    refine ⟨cx + obj.x, cy + obj.y, obj.r, ?_⟩
    rw [if_pos hcond]
    exact List.mem_append_left _ (List.mem_singleton_self _)

end Globes
